import Mathlib

/-!
# calorie-counter: entry store and entry handlers

A shallow embedding of `app/service/models/entry.go` and
`app/service/handlers/entries.go`.

* Go calls either return or end in a run-time panic: `Run`.
* A Go `error` value is `Option String`: `none` is `nil`, `some msg` is an
  error whose `Error()` text is `msg`.
* The database behind `*sql.DB` is an explicit value `DB`; functions that
  issue a writing statement return the database they leave behind.
* `http.ResponseWriter` is the record of the calls made on it.
-/

set_option linter.dupNamespace false

namespace CalorieCounter

/-! ## Go run time -/

/-- Run-time panics the embedded code can raise. -/
inductive Fault
  | nilDereference
  | indexOutOfRange
  deriving DecidableEq, Repr

/-- Outcome of a Go call: it returns a value or it panics. -/
inductive Run (α : Type)
  | ret (a : α)
  | fault (f : Fault)
  deriving DecidableEq, Repr

/-- A Go `error`: `none` is `nil`. -/
abbrev GoError := Option String

/-- The method call `err.Error()`; on a nil `error` it panics. -/
def GoError.Error : GoError → Run String
  | none => .fault .nilDereference
  | some msg => .ret msg

namespace errors

/-- `errors.New(msg)` of github.com/pkg/errors. -/
def New (msg : String) : GoError := some msg

/-- `errors.Wrap(err, msg)` of github.com/pkg/errors: nil when `err` is nil,
otherwise an error whose text is `msg: ` followed by the text of `err`. -/
def Wrap (err : GoError) (msg : String) : GoError :=
  match err with
  | none => none
  | some e => some (msg ++ ": " ++ e)

end errors

/-- A Go `float64`, kept as its 64-bit pattern; the code only moves it. -/
structure Float64 where
  bits : Nat
  deriving DecidableEq, Repr

/-! ## The database -/

/-- A column value. -/
inductive Val
  | null
  | int (i : Int)
  | dec (q : Float64)
  | date (d : Nat)
  | text (s : String)
  deriving DecidableEq, Repr

/-- Column default of a table definition. -/
inductive ColDefault
  | none
  | serial
  | currentDate
  deriving DecidableEq, Repr

/-- A column: name, default, and the table its value must reference by `id`. -/
structure Column where
  name : String
  dflt : ColDefault
  refs : Option String
  deriving DecidableEq, Repr

/-- A relation: its columns, its rows (one value per column) and the next
value of its serial sequence. -/
structure Table where
  cols : List Column
  rows : List (List Val)
  serial : Int
  deriving DecidableEq, Repr

/-- The database a `*sql.DB` handle talks to. `connErr` is the error every
query gets when the connection cannot be used. -/
structure DB where
  tables : List (String × Table)
  today : Nat
  connErr : Option String
  deriving DecidableEq, Repr

/-- The statements the entry store issues. -/
inductive Stmt
  | insert (table : String) (cols : List String) (vals : List Val)
  | select (table : String) (whereCol : String) (v : Val)
  | delete (table : String) (whereCol : String) (v : Val)
  | update (table : String) (set : List (String × Val)) (whereCol : String) (v : Val)
  deriving DecidableEq, Repr

/-- The schema `MigrateEntries` creates. -/
def entriesSchema : List Column :=
  [ ⟨"id", .serial, none⟩,
    ⟨"user_id", .none, some "accounts"⟩,
    ⟨"product_id", .none, some "products"⟩,
    ⟨"quantity", .none, none⟩,
    ⟨"date", .currentDate, none⟩ ]

def DB.table? (db : DB) (name : String) : Option Table :=
  db.tables.lookup name

def DB.setTable (db : DB) (name : String) (t : Table) : DB :=
  { db with tables := db.tables.map (fun p => if p.1 = name then (name, t) else p) }

def Table.hasCol (t : Table) (c : String) : Bool :=
  t.cols.any (fun k => k.name == c)

/-- Value of column `c` in `row`. -/
def Table.cell (t : Table) (row : List Val) (c : String) : Val :=
  row.getD (t.cols.findIdx (fun k => k.name == c)) .null

/-- The row satisfies `c = v`; a comparison with NULL is never true. -/
def Table.sat (t : Table) (c : String) (v : Val) (row : List Val) : Bool :=
  v != .null && t.cell row c == v

/-- A value placed in column `c` satisfies the column's REFERENCES clause. -/
def DB.refOk (db : DB) (c : Column) (v : Val) : Bool :=
  match c.refs with
  | none => true
  | some tn =>
    v == .null ||
      (match db.table? tn with
       | none => false
       | some t => t.rows.any (t.sat "id" v))

def Table.rowOk (db : DB) (t : Table) (row : List Val) : Bool :=
  (t.cols.zip row).all (fun p => db.refOk p.1 p.2)

/-- Replace in `row` the columns named in `set`. -/
def Table.assign (t : Table) (set : List (String × Val)) (row : List Val) : List Val :=
  (t.cols.zip row).map (fun p => (set.lookup p.1.name).getD p.2)

/-- Execution of one statement by the database server: the database left
behind and the result rows, or the server's error. -/
def exec (db : DB) : Stmt → Except String (DB × List (List Val))
  | .insert tn cols vals =>
    match db.table? tn with
    | none => .error ("relation " ++ tn ++ " does not exist")
    | some t =>
      if cols.length = vals.length ∧ cols.all t.hasCol then
        let given := cols.zip vals
        let row := t.cols.map (fun c =>
          match given.lookup c.name with
          | some v => v
          | none =>
            match c.dflt with
            | .none => Val.null
            | .serial => Val.int t.serial
            | .currentDate => Val.date db.today)
        if t.rowOk db row then
          .ok (db.setTable tn { t with rows := t.rows ++ [row], serial := t.serial + 1 }, [])
        else .error ("insert on " ++ tn ++ " violates foreign key constraint")
      else .error ("column of relation " ++ tn ++ " does not exist")
  | .select tn c v =>
    match db.table? tn with
    | none => .error ("relation " ++ tn ++ " does not exist")
    | some t =>
      if t.hasCol c then .ok (db, t.rows.filter (t.sat c v))
      else .error ("column " ++ c ++ " does not exist")
  | .delete tn c v =>
    match db.table? tn with
    | none => .error ("relation " ++ tn ++ " does not exist")
    | some t =>
      if t.hasCol c then
        .ok (db.setTable tn { t with rows := t.rows.filter (fun r => !t.sat c v r) }, [])
      else .error ("column " ++ c ++ " does not exist")
  | .update tn set c v =>
    match db.table? tn with
    | none => .error ("relation " ++ tn ++ " does not exist")
    | some t =>
      if t.hasCol c ∧ set.all (fun p => t.hasCol p.1) then
        let rows := t.rows.map (fun r => if t.sat c v r then t.assign set r else r)
        if rows.all (t.rowOk db) then .ok (db.setTable tn { t with rows := rows }, [])
        else .error ("update on " ++ tn ++ " violates foreign key constraint")
      else .error ("column of relation " ++ tn ++ " does not exist")

/-- Result set of a query, `*sql.Rows`. -/
abbrev Rows := List (List Val)

/-- `db.Query(stmt, args...)`: the database left behind, and either a non-nil
`*Rows` with a nil error, or a nil `*Rows` with the error. -/
def DB.Query (db : DB) (s : Stmt) : DB × Option Rows × GoError :=
  match db.connErr with
  | some e => (db, none, some e)
  | none =>
    match exec db s with
    | .error e => (db, none, some e)
    | .ok (db1, rs) => (db1, some rs, none)

/-- `rows.Close()`: the method reads fields of its receiver, so it panics on
a nil `*Rows`. -/
def Rows.Close : Option Rows → Run Unit
  | none => .fault .nilDereference
  | some _ => .ret ()

/-! ## models/entry.go -/

namespace models

structure Entry where
  ID : Int
  UserID : Int
  ProductID : Int
  Quantity : Float64
  deriving DecidableEq, Repr

/-- The zero value `Entry{}`. -/
def Entry.zero : Entry := ⟨0, 0, 0, ⟨0⟩⟩

/-- `rows.Scan(entry.ID, entry.UserID, entry.ProductID, entry.Quantity)`:
the call receives the values of the four fields, not their addresses, so
the entry is left as it was (the error `Scan` returns is discarded). -/
def scanInto (_row : List Val) (entry : Entry) : Entry := entry

def CreateEntry (db : DB) (entry : Entry) : Run (DB × GoError) :=
  match db.Query (.insert "entries" ["user_id", "product_id", "quantity"]
      [.int entry.UserID, .int entry.ProductID, .dec entry.Quantity]) with
  | (db1, rows, err) =>
    -- defer rows.Close(); return err
    match Rows.Close rows with
    | .fault f => .fault f
    | .ret _ => .ret (db1, err)

def GetEntry (db : DB) (id : Int) : Run (Option Entry × GoError) :=
  match db.Query (.select "entries" "id" (.int id)) with
  | (_, rows, err) =>
    if err.isSome then .ret (none, err)
    else
      match rows with
      | none => .fault .nilDereference
      | some rs =>
        -- defer rows.Close(): rows is not nil here
        let entries := rs.map (fun row => scanInto row Entry.zero)
        if entries.length > 1 then
          .ret (none, errors.New "Two entries with the same id")
        else
          match entries[0]? with
          | none => .fault .indexOutOfRange
          | some e => .ret (some e, err)

def GetUsersEntries (db : DB) (userID : Int) (_date : Nat) : Run (List Entry × GoError) :=
  match db.Query (.select "entries" "user_id" (.int userID)) with
  | (_, rows, err) =>
    if err.isSome then .ret ([], err)
    else
      match rows with
      | none => .fault .nilDereference
      | some rs => .ret (rs.map (fun row => scanInto row Entry.zero), err)

def DeleteEntry (db : DB) (id : Int) : Run (DB × GoError) :=
  match db.Query (.delete "entries" "id" (.int id)) with
  | (db1, rows, err) =>
    let result := if err.isSome then errors.Wrap err "While deleting entry" else none
    -- defer rows.Close()
    match Rows.Close rows with
    | .fault f => .fault f
    | .ret _ => .ret (db1, result)

def UpdateEntry (db : DB) (id : Int) (new : Entry) : Run (DB × GoError) :=
  match db.Query (.update "products"
      [("user_id", .int new.UserID), ("product_id", .int new.ProductID),
       ("quantity", .dec new.Quantity)] "id" (.int id)) with
  | (db1, rows, err) =>
    let result := if err.isSome then errors.Wrap err "While updating entry" else none
    -- defer rows.Close()
    match Rows.Close rows with
    | .fault f => .fault f
    | .ret _ => .ret (db1, result)

/-- The type `models.Product`; its declaration is not among the sources at
hand, so a product is kept as the values of its row. -/
structure Product where
  cols : List Val
  deriving DecidableEq, Repr

/-- The type `models.Portion`, kept as the values of its row. -/
structure Portion where
  cols : List Val
  deriving DecidableEq, Repr

end models

/-- The functions of package `models` as the handlers call them: argument and
result types are the ones the call sites in `handlers/entries.go` use
(a pointer is an `Option`). The product and portion lookups are not among
the sources at hand. Functions that only read return no database. -/
structure Models where
  CreateEntry : DB → models.Entry → Run (DB × Option models.Entry × GoError)
  GetEntry : DB → Int → Run (Option models.Entry × GoError)
  GetUsersEntries : DB → Int → Nat → Run (Option (List models.Entry) × GoError)
  DeleteEntry : DB → Int → Run (DB × GoError)
  UpdateEntry : DB → Int → Option models.Entry → Run (DB × GoError)
  GetProductById : DB → Int → Run (Option models.Product × GoError)
  GetProductsPortions : DB → Int → Run (List models.Portion × GoError)

/-- A call of a `models` function, as recorded by the handlers below. -/
inductive Call
  | CreateEntry (entry : models.Entry)
  | GetEntry (id : Int)
  | GetUsersEntries (userID : Int) (date : Nat)
  | DeleteEntry (id : Int)
  | UpdateEntry (id : Int) (new : Option models.Entry)
  | GetProductById (id : Int)
  | GetProductsPortions (id : Int)
  deriving DecidableEq, Repr

/-! ## handlers/entries.go -/

namespace handlers

/-- The local type `Product` of `GetUsersEntries`. -/
structure GetUsersEntries.Product where
  Product : models.Product
  Portions : List models.Portion
  deriving DecidableEq, Repr

/-- The local type `Entry` of `GetUsersEntries`. -/
structure GetUsersEntries.Entry where
  Entry : models.Entry
  Product : GetUsersEntries.Product
  deriving DecidableEq, Repr

/-- A value of a field of a response body. -/
inductive JVal
  | str (s : String)
  | entry (e : models.Entry)
  | entries (es : List GetUsersEntries.Entry)
  deriving DecidableEq, Repr

/-- A JSON object: the fields that are present, in order. -/
abbrev Json := List (String × JVal)

/-- What the handler did with its `http.ResponseWriter`: the headers added,
the status codes passed to `WriteHeader`, the objects encoded to the body. -/
structure ResponseWriter where
  header : List (String × String)
  status : List Nat
  body : List Json
  deriving DecidableEq, Repr

/-- State a handler runs in: the database, the response writer and the record
of the `models` calls made so far. -/
structure World where
  db : DB
  w : ResponseWriter
  calls : List Call
  deriving DecidableEq, Repr

/-- The state a request starts in. -/
def World.init (db : DB) : World := ⟨db, ⟨[], [], []⟩, []⟩

def World.addHeader (s : World) (k v : String) : World :=
  { s with w := { s.w with header := s.w.header ++ [(k, v)] } }

def World.writeHeader (s : World) (status : Nat) : World :=
  { s with w := { s.w with status := s.w.status ++ [status] } }

def World.encode (s : World) (out : Json) : World :=
  { s with w := { s.w with body := s.w.body ++ [out] } }

def World.called (s : World) (c : Call) : World :=
  { s with calls := s.calls ++ [c] }

/-- A request as a handler sees it: the outcome of decoding the body into the
handler's request object, and the user id found in the request context. -/
structure Request (α : Type) where
  body : Except String α
  userID : Option Int

def StatusOK : Nat := 200
def StatusBadRequest : Nat := 400
def StatusUnauthorized : Nat := 401

/-- A string field tagged `omitempty`. -/
def omitEmptyString (k : String) (v : String) : Json :=
  if v = "" then [] else [(k, .str v)]

/-! ### CreateEntry -/

structure CreateEntry.RequestObject where
  Entry : Option models.Entry

structure CreateEntry.ResponseObject where
  Error : String
  Entry : Option models.Entry

def CreateEntry.ResponseObject.json (out : CreateEntry.ResponseObject) : Json :=
  omitEmptyString "error" out.Error ++
    (match out.Entry with
     | none => []
     | some e => [("entry", .entry e)])

def CreateEntry.sendError (s : World) (status : Nat) (err : GoError) : Run World :=
  let err := errors.Wrap err "While creating entry"
  -- logger.Error(err) writes to the log only
  let s := (s.addHeader "Content-Type" "application/json").writeHeader status
  match err.Error with
  | .fault f => .fault f
  | .ret msg => .ret (s.encode (CreateEntry.ResponseObject.json ⟨msg, none⟩))

def CreateEntry.sendData (s : World) (status : Nat) (entry : Option models.Entry) : Run World :=
  let s := (s.addHeader "Content-Type" "application/json").writeHeader status
  .ret (s.encode (CreateEntry.ResponseObject.json ⟨"", entry⟩))

def CreateEntry (m : Models) (r : Request CreateEntry.RequestObject) (s : World) : Run World :=
  match r.body with
  | .error e =>
    CreateEntry.sendError s StatusBadRequest (errors.Wrap (some e) "While decoding request body")
  | .ok inp =>
    match inp.Entry with
    | none =>
      -- err is nil here
      CreateEntry.sendError s StatusBadRequest (errors.Wrap none "No entry provided")
    | some entry =>
      match r.userID with
      | none =>
        CreateEntry.sendError s StatusBadRequest
          (errors.New "While getting UserID from request context")
      | some userID =>
        let entry := { entry with UserID := userID }
        match m.CreateEntry s.db entry with
        | .fault f => .fault f
        | .ret (db1, dbEntry, err) =>
          let s := { s.called (.CreateEntry entry) with db := db1 }
          if err.isSome then
            CreateEntry.sendError s StatusBadRequest (errors.Wrap err "While creating db entry")
          else CreateEntry.sendData s StatusOK dbEntry

/-! ### GetUsersEntries -/

structure GetUsersEntries.RequestObject where
  Date : Nat

structure GetUsersEntries.ResponseObject where
  Error : String
  Entries : Option (List GetUsersEntries.Entry)

def GetUsersEntries.ResponseObject.json (out : GetUsersEntries.ResponseObject) : Json :=
  omitEmptyString "error" out.Error ++
    (match out.Entries with
     | none => []
     | some es => [("entries", .entries es)])

def GetUsersEntries.sendError (s : World) (status : Nat) (err : GoError) : Run World :=
  let err := errors.Wrap err "While creating entry"
  -- logger.Error(err) writes to the log only
  let s := (s.addHeader "Content-Type" "application/json").writeHeader status
  match err.Error with
  | .fault f => .fault f
  | .ret msg => .ret (s.encode (GetUsersEntries.ResponseObject.json ⟨msg, none⟩))

def GetUsersEntries.sendData (s : World) (status : Nat)
    (entries : Option (List GetUsersEntries.Entry)) : Run World :=
  let s := (s.addHeader "Content-Type" "application/json").writeHeader status
  .ret (s.encode (GetUsersEntries.ResponseObject.json ⟨"", entries⟩))

/-- The loop over the user's entries together with the `sendData` that
follows it: `rest` are the entries still to visit, `popEntries` the
populated entries so far. -/
def GetUsersEntries.populate (m : Models) :
    List models.Entry → List GetUsersEntries.Entry → World → Run World
  | [], popEntries, s => GetUsersEntries.sendData s StatusOK (some popEntries)
  | entry :: rest, popEntries, s =>
    let productID := entry.ProductID
    match m.GetProductById s.db productID with
    | .fault f => .fault f
    | .ret (product, err) =>
      let s := s.called (.GetProductById productID)
      if err.isSome then
        GetUsersEntries.sendError s StatusBadRequest (errors.Wrap err "While getting db product")
      else
        match m.GetProductsPortions s.db productID with
        | .fault f => .fault f
        | .ret (portions, err) =>
          let s := s.called (.GetProductsPortions productID)
          if err.isSome then
            GetUsersEntries.sendError s StatusBadRequest
              (errors.Wrap err "While getting db product portion")
          else
            match product with
            | none => .fault .nilDereference
            | some p =>
              GetUsersEntries.populate m rest (popEntries ++ [⟨entry, ⟨p, portions⟩⟩]) s

def GetUsersEntries (m : Models) (r : Request GetUsersEntries.RequestObject) (s : World) :
    Run World :=
  match r.body with
  | .error e =>
    GetUsersEntries.sendError s StatusBadRequest
      (errors.Wrap (some e) "While decoding request body")
  | .ok inp =>
    match r.userID with
    | none =>
      GetUsersEntries.sendError s StatusBadRequest
        (errors.New "While getting UserID from request context")
    | some userID =>
      match m.GetUsersEntries s.db userID inp.Date with
      | .fault f => .fault f
      | .ret (entries, err) =>
        let s := s.called (.GetUsersEntries userID inp.Date)
        if err.isSome then
          GetUsersEntries.sendError s StatusBadRequest
            (errors.Wrap err "While getting db users entries")
        else
          match entries with
          | none => .fault .nilDereference
          | some es => GetUsersEntries.populate m es [] s

/-! ### DeleteEntry -/

structure DeleteEntry.RequestObject where
  ID : Int

structure DeleteEntry.ResponseObject where
  Error : String

def DeleteEntry.ResponseObject.json (out : DeleteEntry.ResponseObject) : Json :=
  omitEmptyString "error" out.Error

def DeleteEntry.sendError (s : World) (status : Nat) (err : GoError) : Run World :=
  let err := errors.Wrap err "While creating entry"
  -- logger.Error(err) writes to the log only
  let s := (s.addHeader "Content-Type" "application/json").writeHeader status
  match err.Error with
  | .fault f => .fault f
  | .ret msg => .ret (s.encode (DeleteEntry.ResponseObject.json ⟨msg⟩))

def DeleteEntry.sendData (s : World) (status : Nat) : Run World :=
  let s := (s.addHeader "Content-Type" "application/json").writeHeader status
  .ret (s.encode (DeleteEntry.ResponseObject.json ⟨""⟩))

def DeleteEntry (m : Models) (r : Request DeleteEntry.RequestObject) (s : World) : Run World :=
  match r.body with
  | .error e =>
    DeleteEntry.sendError s StatusBadRequest (errors.Wrap (some e) "While decoding request body")
  | .ok inp =>
    match r.userID with
    | none =>
      DeleteEntry.sendError s StatusBadRequest
        (errors.New "While getting UserID from request context")
    | some userID =>
      match m.GetEntry s.db inp.ID with
      | .fault f => .fault f
      | .ret (entry, _) =>
        let s := s.called (.GetEntry inp.ID)
        match entry with
        | none => .fault .nilDereference
        | some entry =>
          if entry.UserID ≠ userID then
            DeleteEntry.sendError s StatusUnauthorized
              (errors.New "Permission denied, user id do not match")
          else
            match m.DeleteEntry s.db inp.ID with
            | .fault f => .fault f
            | .ret (db1, err) =>
              let s := { s.called (.DeleteEntry inp.ID) with db := db1 }
              if err.isSome then
                DeleteEntry.sendError s StatusBadRequest
                  (errors.Wrap err "While deleting db users entry")
              else DeleteEntry.sendData s StatusOK

/-! ### UpdateEntry -/

structure UpdateEntry.RequestObject where
  ID : Int
  Entry : Option models.Entry

structure UpdateEntry.ResponseObject where
  Error : String

def UpdateEntry.ResponseObject.json (out : UpdateEntry.ResponseObject) : Json :=
  omitEmptyString "error" out.Error

def UpdateEntry.sendError (s : World) (status : Nat) (err : GoError) : Run World :=
  let err := errors.Wrap err "While updating entry"
  -- logger.Error(err) writes to the log only
  let s := (s.addHeader "Content-Type" "application/json").writeHeader status
  match err.Error with
  | .fault f => .fault f
  | .ret msg => .ret (s.encode (UpdateEntry.ResponseObject.json ⟨msg⟩))

def UpdateEntry.sendData (s : World) (status : Nat) : Run World :=
  let s := (s.addHeader "Content-Type" "application/json").writeHeader status
  .ret (s.encode (UpdateEntry.ResponseObject.json ⟨""⟩))

def UpdateEntry (m : Models) (r : Request UpdateEntry.RequestObject) (s : World) : Run World :=
  match r.body with
  | .error e =>
    UpdateEntry.sendError s StatusBadRequest (errors.Wrap (some e) "While decoding request body")
  | .ok inp =>
    match r.userID with
    | none =>
      UpdateEntry.sendError s StatusBadRequest
        (errors.New "While getting UserID from request context")
    | some userID =>
      match m.GetEntry s.db inp.ID with
      | .fault f => .fault f
      | .ret (entry, _) =>
        let s := s.called (.GetEntry inp.ID)
        match entry with
        | none => .fault .nilDereference
        | some entry =>
          if entry.UserID ≠ userID then
            UpdateEntry.sendError s StatusUnauthorized
              (errors.New "Permission denied, user id do not match")
          else
            match m.UpdateEntry s.db inp.ID inp.Entry with
            | .fault f => .fault f
            | .ret (db1, err) =>
              let s := { s.called (.UpdateEntry inp.ID inp.Entry) with db := db1 }
              if err.isSome then
                UpdateEntry.sendError s StatusBadRequest (errors.Wrap err "While db update entry")
              else UpdateEntry.sendData s StatusOK

end handlers

/-! ## The handlers on top of `models/entry.go` -/

namespace models

/-- Modelled from the spec: the product-by-id lookup `GetProductById`, whose
source is missing; it reads the row of `products` with the given id and
reports an error when the query fails or no row matches. -/
def GetProductById (db : DB) (id : Int) : Run (Option Product × GoError) :=
  match db.Query (.select "products" "id" (.int id)) with
  | (_, _, some e) => .ret (none, some e)
  | (_, none, none) => .fault .nilDereference
  | (_, some [], none) => .ret (none, errors.New "No product with given id")
  | (_, some (row :: _), none) => .ret (some ⟨row⟩, none)

/-- Modelled from the spec: the portions-by-product-id lookup
`GetProductsPortions`, whose source is missing; it returns a sequence,
possibly empty. -/
def GetProductsPortions (db : DB) (productID : Int) : Run (List Portion × GoError) :=
  match db.Query (.select "portions" "product_id" (.int productID)) with
  | (_, _, some e) => .ret ([], some e)
  | (_, none, none) => .fault .nilDereference
  | (_, some rs, none) => .ret (rs.map (fun row => ⟨row⟩), none)

end models

/-- The functions of `models/entry.go` behind the handlers. Where a call site
and the function disagree on a type the value is passed on as it is: the
entry handed to `CreateEntry` comes back as the stored entry, the slice of
`GetUsersEntries` is taken by address, and the entry pointer given to
`UpdateEntry` is dereferenced. -/
def srcModels : Models where
  CreateEntry db entry :=
    match models.CreateEntry db entry with
    | .fault f => .fault f
    | .ret (db1, err) => .ret (db1, some entry, err)
  GetEntry := models.GetEntry
  GetUsersEntries db userID date :=
    match models.GetUsersEntries db userID date with
    | .fault f => .fault f
    | .ret (es, err) => .ret (some es, err)
  DeleteEntry := models.DeleteEntry
  UpdateEntry db id new :=
    match new with
    | none => .fault .nilDereference
    | some e => models.UpdateEntry db id e
  GetProductById := models.GetProductById
  GetProductsPortions := models.GetProductsPortions

/-! ## Sample data -/

/-- The float64 2.5. -/
def f2_5 : Float64 := ⟨0x4004000000000000⟩

/-- A database with accounts 1, 2 and 42, product 5 with one portion, and
entry 7 owned by account 2. -/
def sampleDB : DB where
  tables :=
    [ ("accounts", ⟨[⟨"id", .serial, none⟩], [[.int 1], [.int 2], [.int 42]], 43⟩),
      ("products", ⟨[⟨"id", .serial, none⟩, ⟨"name", .none, none⟩],
        [[.int 5, .text "oats"]], 6⟩),
      ("portions", ⟨[⟨"id", .serial, none⟩, ⟨"product_id", .none, some "products"⟩,
          ⟨"name", .none, none⟩],
        [[.int 1, .int 5, .text "bowl"]], 2⟩),
      ("entries", ⟨entriesSchema, [[.int 7, .int 2, .int 5, .dec f2_5, .date 100]], 8⟩) ]
  today := 101
  connErr := none

/-- The sample database behind a connection that refuses every query. -/
def sampleDBDown : DB := { sampleDB with connErr := some "connection refused" }

/-- The functions behind the handlers, with the list of the user's entries
fixed to `es`; used to run the list handler on entries of several products. -/
def listingModels (es : List models.Entry) : Models :=
  { srcModels with GetUsersEntries := fun _ _ _ => .ret (some es, none) }

/-! ## Shape of a response -/

namespace handlers

/-- The writer holds exactly one response: one `WriteHeader(status)` and one
encoded body, whose only field is a non-empty `error` message. -/
def IsErrorResponse (w : ResponseWriter) (status : Nat) : Prop :=
  w.status = [status] ∧ ∃ msg : String, msg ≠ "" ∧ w.body = [[("error", JVal.str msg)]]

/-- The body has an `error` field holding a non-empty message. -/
def HasError (b : Json) : Prop :=
  ∃ msg : String, msg ≠ "" ∧ b.lookup "error" = some (JVal.str msg)

/-- The body has an `entry` or an `entries` field. -/
def HasPayload (b : Json) : Prop :=
  (b.lookup "entry").isSome = true ∨ (b.lookup "entries").isSome = true

/-- Exactly one response was written, with a status among 200, 400 and 401,
an `error` message exactly when the status is not 200, and never an `error`
field next to a payload. -/
def WellFormed (w : ResponseWriter) : Prop :=
  ∃ (st : Nat) (b : Json), w.status = [st] ∧ w.body = [b] ∧
    (st = 200 ∨ st = 400 ∨ st = 401) ∧
    (HasError b ↔ st ≠ 200) ∧
    ¬ ((b.lookup "error").isSome = true ∧ HasPayload b)

end handlers

/-! ## Lemmas -/

open handlers

/-- The state after an error response with text `msg` has been sent. -/
def errorWorld (s : World) (st : Nat) (msg : String) : World :=
  ((s.addHeader "Content-Type" "application/json").writeHeader st).encode
    [("error", JVal.str msg)]

/-- The state after a success response with body `b` has been sent. -/
def dataWorld (s : World) (st : Nat) (b : Json) : World :=
  ((s.addHeader "Content-Type" "application/json").writeHeader st).encode b

/-- The populated entry the loop builds for `e`. -/
def populated (prod : Int → models.Product) (ports : Int → List models.Portion)
    (e : models.Entry) : GetUsersEntries.Entry :=
  ⟨e, ⟨prod e.ProductID, ports e.ProductID⟩⟩

/-- A SELECT leaves the database as it is, which is why the reading functions
of `models` return no database. -/
theorem Query_select_keeps_db (db : DB) (tn c : String) (v : Val) :
    (db.Query (.select tn c v)).1 = db := by
  unfold DB.Query
  cases db.connErr with
  | some e => rfl
  | none =>
    simp only [exec]
    cases db.table? tn with
    | none => rfl
    | some t =>
      by_cases h : t.hasCol c = true
      · simp only [h, if_true]
      · simp only [h, if_false, Bool.false_eq_true]

theorem wrapped_text_ne_empty (msg e : String) (h : 0 < msg.length) :
    msg ++ ": " ++ e ≠ "" := by
  intro hc
  have hl := congrArg String.length hc
  simp only [String.length_append] at hl
  have h0 : ("" : String).length = 0 := rfl
  omega

theorem omitEmptyString_of_ne (k v : String) (h : v ≠ "") :
    omitEmptyString k v = [(k, JVal.str v)] := by
  simp [omitEmptyString, h]

theorem CreateEntry_sendError_some (s : World) (st : Nat) (e : String) :
    CreateEntry.sendError s st (some e) =
      .ret (errorWorld s st ("While creating entry" ++ ": " ++ e)) := by
  have h := wrapped_text_ne_empty "While creating entry" e (by decide)
  simp only [CreateEntry.sendError, errors.Wrap, GoError.Error, CreateEntry.ResponseObject.json,
    omitEmptyString_of_ne _ _ h, List.append_nil, errorWorld]

theorem GetUsersEntries_sendError_some (s : World) (st : Nat) (e : String) :
    GetUsersEntries.sendError s st (some e) =
      .ret (errorWorld s st ("While creating entry" ++ ": " ++ e)) := by
  have h := wrapped_text_ne_empty "While creating entry" e (by decide)
  simp only [GetUsersEntries.sendError, errors.Wrap, GoError.Error,
    GetUsersEntries.ResponseObject.json, omitEmptyString_of_ne _ _ h, List.append_nil, errorWorld]

theorem DeleteEntry_sendError_some (s : World) (st : Nat) (e : String) :
    DeleteEntry.sendError s st (some e) =
      .ret (errorWorld s st ("While creating entry" ++ ": " ++ e)) := by
  have h := wrapped_text_ne_empty "While creating entry" e (by decide)
  simp only [DeleteEntry.sendError, errors.Wrap, GoError.Error, DeleteEntry.ResponseObject.json,
    omitEmptyString_of_ne _ _ h, errorWorld]

theorem UpdateEntry_sendError_some (s : World) (st : Nat) (e : String) :
    UpdateEntry.sendError s st (some e) =
      .ret (errorWorld s st ("While updating entry" ++ ": " ++ e)) := by
  have h := wrapped_text_ne_empty "While updating entry" e (by decide)
  simp only [UpdateEntry.sendError, errors.Wrap, GoError.Error, UpdateEntry.ResponseObject.json,
    omitEmptyString_of_ne _ _ h, errorWorld]

/-- An error response written on a writer that was still untouched. -/
theorem isErrorResponse_of_ne (s : World) (st : Nat) (msg : String)
    (hw : s.w = ⟨[], [], []⟩) (h : msg ≠ "") :
    IsErrorResponse (errorWorld s st msg).w st := by
  refine ⟨?_, msg, h, ?_⟩
  · simp [errorWorld, World.addHeader, World.writeHeader, World.encode, hw]
  · simp [errorWorld, World.addHeader, World.writeHeader, World.encode, hw]

theorem isErrorResponse_errorWorld (s : World) (st : Nat) (pre e : String)
    (hw : s.w = ⟨[], [], []⟩) (h : 0 < pre.length) :
    IsErrorResponse (errorWorld s st (pre ++ ": " ++ e)).w st :=
  isErrorResponse_of_ne s st _ hw (wrapped_text_ne_empty pre e h)

/-- A run that ends in `errorWorld` on an untouched writer has written exactly
one error response and kept database and call record. -/
theorem error_outcome (r : Run World) (s0 : World) (st : Nat) (pre e : String)
    (hr : r = .ret (errorWorld s0 st (pre ++ ": " ++ e)))
    (hw : s0.w = ⟨[], [], []⟩) (h : 0 < pre.length) :
    ∃ s, r = .ret s ∧ s.db = s0.db ∧ s.calls = s0.calls ∧ IsErrorResponse s.w st :=
  ⟨_, hr, rfl, rfl, isErrorResponse_errorWorld s0 st pre e hw h⟩

/-! ## Claims -/

/-- C7: for each of the four handlers, a request whose body fails JSON
decoding is answered with exactly one response of status 400 carrying a
non-empty error message; no `models` function is called and the database is
the one the request started with. -/
theorem decode_failure_is_400_without_store_call (m : Models) (db : DB) (e : String)
    (u : Option Int) :
    (∃ s, handlers.CreateEntry m ⟨.error e, u⟩ (World.init db) = .ret s ∧
      s.db = db ∧ s.calls = [] ∧ IsErrorResponse s.w 400) ∧
    (∃ s, handlers.GetUsersEntries m ⟨.error e, u⟩ (World.init db) = .ret s ∧
      s.db = db ∧ s.calls = [] ∧ IsErrorResponse s.w 400) ∧
    (∃ s, handlers.DeleteEntry m ⟨.error e, u⟩ (World.init db) = .ret s ∧
      s.db = db ∧ s.calls = [] ∧ IsErrorResponse s.w 400) ∧
    (∃ s, handlers.UpdateEntry m ⟨.error e, u⟩ (World.init db) = .ret s ∧
      s.db = db ∧ s.calls = [] ∧ IsErrorResponse s.w 400) := by
  refine ⟨?_, ?_, ?_, ?_⟩
  · exact error_outcome _ (World.init db) 400 "While creating entry"
      ("While decoding request body" ++ ": " ++ e)
      (by simp only [handlers.CreateEntry, errors.Wrap, CreateEntry_sendError_some,
        StatusBadRequest]) rfl (by decide)
  · exact error_outcome _ (World.init db) 400 "While creating entry"
      ("While decoding request body" ++ ": " ++ e)
      (by simp only [handlers.GetUsersEntries, errors.Wrap, GetUsersEntries_sendError_some,
        StatusBadRequest]) rfl (by decide)
  · exact error_outcome _ (World.init db) 400 "While creating entry"
      ("While decoding request body" ++ ": " ++ e)
      (by simp only [handlers.DeleteEntry, errors.Wrap, DeleteEntry_sendError_some,
        StatusBadRequest]) rfl (by decide)
  · exact error_outcome _ (World.init db) 400 "While updating entry"
      ("While decoding request body" ++ ": " ++ e)
      (by simp only [handlers.UpdateEntry, errors.Wrap, UpdateEntry_sendError_some,
        StatusBadRequest]) rfl (by decide)

/-- C3 (the code departs from it): a Create request whose body decodes but
has no `entry` makes the handler panic with a nil dereference instead of
answering 400: `errors.Wrap` of the nil decode error is nil, and `sendError`
calls `Error()` on it. -/
theorem create_without_entry_panics (m : Models) (u : Option Int) (s : World) :
    handlers.CreateEntry m ⟨.ok ⟨none⟩, u⟩ s = .fault .nilDereference := by
  simp [handlers.CreateEntry, CreateEntry.sendError, errors.Wrap, GoError.Error]

/-- C1: when a Delete or an Update request decodes, carries the user id `u`,
and the entry `models.GetEntry` returns for the requested id has a `UserID`
other than `u`, the handler answers with exactly one response of status 401
carrying a non-empty error message; the only `models` call made is
`GetEntry`, and the database is the one the request started with. -/
theorem foreign_entry_is_refused_with_401 (m : Models) (db : DB) (id u : Int)
    (new : Option models.Entry) (entry : models.Entry) (err : GoError)
    (hget : m.GetEntry db id = .ret (some entry, err)) (hne : entry.UserID ≠ u) :
    (∃ s, handlers.DeleteEntry m ⟨.ok ⟨id⟩, some u⟩ (World.init db) = .ret s ∧
      s.db = db ∧ s.calls = [.GetEntry id] ∧ IsErrorResponse s.w 401) ∧
    (∃ s, handlers.UpdateEntry m ⟨.ok ⟨id, new⟩, some u⟩ (World.init db) = .ret s ∧
      s.db = db ∧ s.calls = [.GetEntry id] ∧ IsErrorResponse s.w 401) := by
  have hget1 : m.GetEntry (World.init db).db id = .ret (some entry, err) := hget
  constructor
  · exact error_outcome _ ((World.init db).called (.GetEntry id)) 401 "While creating entry"
      "Permission denied, user id do not match"
      (by simp only [handlers.DeleteEntry, hget1, errors.New, DeleteEntry_sendError_some,
        StatusUnauthorized, ne_eq, hne, not_false_eq_true, if_true]) rfl (by decide)
  · exact error_outcome _ ((World.init db).called (.GetEntry id)) 401 "While updating entry"
      "Permission denied, user id do not match"
      (by simp only [handlers.UpdateEntry, hget1, errors.New, UpdateEntry_sendError_some,
        StatusUnauthorized, ne_eq, hne, not_false_eq_true, if_true]) rfl (by decide)

/-- Witness for C1 on the code of `models/entry.go`: user 1 asks to delete or
update entry 7, which belongs to user 2. -/
theorem foreign_entry_is_refused_with_401_witness :
    srcModels.GetEntry sampleDB 7 = .ret (some models.Entry.zero, none) ∧
    models.Entry.zero.UserID ≠ 1 ∧
    ((∃ s, handlers.DeleteEntry srcModels ⟨.ok ⟨7⟩, some 1⟩ (World.init sampleDB) = .ret s ∧
      s.db = sampleDB ∧ s.calls = [.GetEntry 7] ∧ IsErrorResponse s.w 401) ∧
    (∃ s, handlers.UpdateEntry srcModels ⟨.ok ⟨7, none⟩, some 1⟩ (World.init sampleDB) = .ret s ∧
      s.db = sampleDB ∧ s.calls = [.GetEntry 7] ∧ IsErrorResponse s.w 401)) :=
  ⟨by decide, by decide,
    foreign_entry_is_refused_with_401 srcModels sampleDB 7 1 none models.Entry.zero none
      (by decide) (by decide)⟩

/-- C5 (the code departs from it): when `models.GetEntry` returns a nil entry
together with an error, the Delete and the Update handler do not look at the
error; they read `entry.UserID` and panic with a nil dereference, so no
response is written. -/
theorem fetch_error_is_not_checked (m : Models) (db : DB) (id u : Int)
    (new : Option models.Entry) (err : GoError)
    (hget : m.GetEntry db id = .ret (none, err)) :
    handlers.DeleteEntry m ⟨.ok ⟨id⟩, some u⟩ (World.init db) = .fault .nilDereference ∧
    handlers.UpdateEntry m ⟨.ok ⟨id, new⟩, some u⟩ (World.init db) = .fault .nilDereference := by
  have hget1 : m.GetEntry (World.init db).db id = .ret (none, err) := hget
  constructor
  · simp only [handlers.DeleteEntry, hget1]
  · simp only [handlers.UpdateEntry, hget1]

/-- Failing input for C5 on the code of `models/entry.go`: user 1 asks to
delete or update entry 7 while the connection refuses the query. -/
theorem fetch_error_is_not_checked_witness :
    srcModels.GetEntry sampleDBDown 7 = .ret (none, some "connection refused") ∧
    handlers.DeleteEntry srcModels ⟨.ok ⟨7⟩, some 1⟩ (World.init sampleDBDown) =
      .fault .nilDereference ∧
    handlers.UpdateEntry srcModels ⟨.ok ⟨7, some ⟨7, 1, 5, f2_5⟩⟩, some 1⟩
      (World.init sampleDBDown) = .fault .nilDereference :=
  ⟨by decide,
    fetch_error_is_not_checked srcModels sampleDBDown 7 1 (some ⟨7, 1, 5, f2_5⟩)
      (some "connection refused") (by decide)⟩

/-- C4 (the code departs from it): when the query succeeds and no row of
`entries` has the requested id, `models.GetEntry` evaluates `entries[0]` on
the empty list and panics with an index out of range; it does not return a
nil entry with an error. -/
theorem GetEntry_without_row_panics (db : DB) (t : Table) (id : Int)
    (hconn : db.connErr = none) (ht : db.table? "entries" = some t)
    (hcol : t.hasCol "id" = true)
    (hnone : ∀ row ∈ t.rows, t.sat "id" (.int id) row = false) :
    models.GetEntry db id = .fault .indexOutOfRange := by
  have hf : t.rows.filter (t.sat "id" (.int id)) = [] := by
    rw [List.filter_eq_nil_iff]
    intro row hrow
    simp [hnone row hrow]
  simp [models.GetEntry, DB.Query, exec, hconn, ht, hcol, hf]

/-- Failing input for C4: the sample database has no entry 8. -/
theorem GetEntry_without_row_panics_witness :
    sampleDB.connErr = none ∧
    sampleDB.table? "entries"
      = some ⟨entriesSchema, [[.int 7, .int 2, .int 5, .dec f2_5, .date 100]], 8⟩ ∧
    models.GetEntry sampleDB 8 = .fault .indexOutOfRange :=
  ⟨rfl, by decide,
    GetEntry_without_row_panics sampleDB
      ⟨entriesSchema, [[.int 7, .int 2, .int 5, .dec f2_5, .date 100]], 8⟩ 8 rfl (by decide)
      (by decide) (by decide)⟩

/-- Replacing the table named `n` leaves the table of every other name. -/
theorem table?_setTable_of_ne (db : DB) (n k : String) (t : Table) (h : k ≠ n) :
    (db.setTable n t).table? k = db.table? k := by
  unfold DB.setTable DB.table?
  simp only
  induction db.tables with
  | nil => rfl
  | cons p l ih =>
    obtain ⟨a, b⟩ := p
    by_cases ha : a = n
    · have hk : (k == n) = false := by simpa using h
      have hk2 : (k == a) = false := by rw [ha]; exact hk
      simp only [List.map_cons, ha, if_true, List.lookup_cons, hk, hk2, ih]
    · by_cases hka : k = a
      · have hk : (k == a) = true := by simpa using hka
        simp only [List.map_cons, ha, if_false, List.lookup_cons, hk]
      · have hk : (k == a) = false := by simpa using hka
        simp only [List.map_cons, ha, if_false, List.lookup_cons, hk, ih]

/-- C8 (the code departs from it): the statement `models.UpdateEntry` issues
updates the relation `products`; whenever the call returns, the relation
`entries` is exactly what it was, whatever `id` and replacement were given.
(When the statement fails the deferred `rows.Close()` on the nil result
panics.) -/
theorem UpdateEntry_leaves_entries_untouched (db : DB) (id : Int) (new : models.Entry) :
    (∃ f, models.UpdateEntry db id new = .fault f) ∨
    (∃ db1 err, models.UpdateEntry db id new = .ret (db1, err) ∧
      db1.table? "entries" = db.table? "entries") := by
  unfold models.UpdateEntry DB.Query
  cases hc : db.connErr with
  | some e => exact Or.inl ⟨.nilDereference, by simp [Rows.Close]⟩
  | none =>
    cases hx : exec db (.update "products"
        [("user_id", .int new.UserID), ("product_id", .int new.ProductID),
         ("quantity", .dec new.Quantity)] "id" (.int id)) with
    | error e => exact Or.inl ⟨.nilDereference, by simp [Rows.Close]⟩
    | ok out =>
      obtain ⟨db1, rs⟩ := out
      refine Or.inr ⟨db1, none, by simp [Rows.Close], ?_⟩
      simp only [exec] at hx
      split at hx
      · exact absurd hx (by simp)
      · split at hx
        · split at hx
          · simp only [Except.ok.injEq, Prod.mk.injEq] at hx
            rw [← hx.1]
            exact table?_setTable_of_ne db "products" "entries" _ (by decide)
          · exact absurd hx (by simp)
        · exact absurd hx (by simp)

/-- The failing input of C8 on the sample database: replacing entry 7 panics,
because `products` has no column `user_id`. -/
theorem UpdateEntry_on_sample_panics :
    models.UpdateEntry sampleDB 7 ⟨7, 2, 5, ⟨0⟩⟩ = .fault .nilDereference := by
  decide

/-- C2: for a Create request whose body decodes to an entry `e` and whose
context carries the user id `u`, the entry handed to the store's
`CreateEntry` has `UserID = u` and the `ProductID` and `Quantity` of `e`,
whatever `e.UserID` is. The handler panics only if the store does; otherwise
it records that single call, answers 200 with the entry the store returned
when the store reports no error, and 400 with an error message when it
does. -/
theorem create_hands_caller_identity_to_store (m : Models) (db : DB) (e : models.Entry)
    (u : Int) :
    ∃ handed : models.Entry,
      handed.UserID = u ∧ handed.ProductID = e.ProductID ∧ handed.Quantity = e.Quantity ∧
      ((∃ f, m.CreateEntry db handed = .fault f ∧
          handlers.CreateEntry m ⟨.ok ⟨some e⟩, some u⟩ (World.init db) = .fault f) ∨
       (∃ db1 dbEntry err s, m.CreateEntry db handed = .ret (db1, dbEntry, err) ∧
          handlers.CreateEntry m ⟨.ok ⟨some e⟩, some u⟩ (World.init db) = .ret s ∧
          s.calls = [.CreateEntry handed] ∧ s.db = db1 ∧
          (err = none → s.w.status = [200] ∧
            s.w.body = [match dbEntry with
                        | none => []
                        | some r => [("entry", JVal.entry r)]]) ∧
          (err ≠ none → IsErrorResponse s.w 400))) := by
  refine ⟨{ e with UserID := u }, rfl, rfl, rfl, ?_⟩
  cases hc : m.CreateEntry db { e with UserID := u } with
  | fault f =>
    have hc1 : m.CreateEntry (World.init db).db { e with UserID := u } = .fault f := hc
    exact Or.inl ⟨f, rfl, by simp only [handlers.CreateEntry, hc1]⟩
  | ret out =>
    obtain ⟨db1, dbEntry, err⟩ := out
    have hc1 : m.CreateEntry (World.init db).db { e with UserID := u }
        = .ret (db1, dbEntry, err) := hc
    right
    cases err with
    | none =>
      refine ⟨db1, dbEntry, none,
        dataWorld { (World.init db).called (.CreateEntry { e with UserID := u }) with db := db1 }
          200 (CreateEntry.ResponseObject.json ⟨"", dbEntry⟩), rfl, ?_, rfl, rfl, ?_, by simp⟩
      · simp only [handlers.CreateEntry, hc1, Option.isSome_none, Bool.false_eq_true, if_false,
          CreateEntry.sendData, dataWorld, StatusOK]
      · intro _
        cases dbEntry <;>
          simp [dataWorld, World.init, World.called, World.addHeader, World.writeHeader, World.encode,
            CreateEntry.ResponseObject.json, omitEmptyString, StatusOK]
    | some msg =>
      refine ⟨db1, dbEntry, some msg,
        errorWorld { (World.init db).called (.CreateEntry { e with UserID := u }) with db := db1 }
          400 ("While creating entry" ++ ": " ++ ("While creating db entry" ++ ": " ++ msg)),
        rfl, ?_, rfl, rfl, by simp, ?_⟩
      · simp only [handlers.CreateEntry, hc1, Option.isSome_some, if_true, errors.Wrap,
          CreateEntry_sendError_some, StatusBadRequest]
      · intro _
        exact isErrorResponse_errorWorld _ _ "While creating entry"
          ("While creating db entry" ++ ": " ++ msg) rfl (by decide)

/-- Witness for C2 on the code of `models/entry.go`: user 42 creates an entry
of 2.5 of product 5 and the body names user 9 as owner; the store is handed,
and the response carries, an entry of user 42. -/
theorem create_hands_caller_identity_to_store_witness :
    (∃ s, handlers.CreateEntry srcModels ⟨.ok ⟨some ⟨0, 9, 5, f2_5⟩⟩, some 42⟩
        (World.init sampleDB) = .ret s ∧
      s.calls = [.CreateEntry ⟨0, 42, 5, f2_5⟩] ∧ s.w.status = [200] ∧
      s.w.body = [[("entry", JVal.entry ⟨0, 42, 5, f2_5⟩)]]) ∧
    (∃ handed : models.Entry, handed.UserID = 42 ∧ handed.ProductID = 5 ∧
      handed.Quantity = f2_5 ∧
      ((∃ f, srcModels.CreateEntry sampleDB handed = .fault f ∧
          handlers.CreateEntry srcModels ⟨.ok ⟨some ⟨0, 9, 5, f2_5⟩⟩, some 42⟩
            (World.init sampleDB) = .fault f) ∨
       (∃ db1 dbEntry err s, srcModels.CreateEntry sampleDB handed = .ret (db1, dbEntry, err) ∧
          handlers.CreateEntry srcModels ⟨.ok ⟨some ⟨0, 9, 5, f2_5⟩⟩, some 42⟩
            (World.init sampleDB) = .ret s ∧
          s.calls = [.CreateEntry handed] ∧ s.db = db1 ∧
          (err = none → s.w.status = [200] ∧
            s.w.body = [match dbEntry with
                        | none => []
                        | some r => [("entry", JVal.entry r)]]) ∧
          (err ≠ none → IsErrorResponse s.w 400)))) :=
  ⟨⟨_, rfl, rfl, rfl, rfl⟩,
    create_hands_caller_identity_to_store srcModels sampleDB ⟨0, 9, 5, f2_5⟩ 42⟩

/-! ### The list handler -/

theorem populate_all_found (m : Models) (prod : Int → models.Product)
    (ports : Int → List models.Portion) (es : List models.Entry) :
    ∀ (acc : List GetUsersEntries.Entry) (s : World),
      (∀ e ∈ es, m.GetProductById s.db e.ProductID = .ret (some (prod e.ProductID), none)) →
      (∀ e ∈ es, m.GetProductsPortions s.db e.ProductID = .ret (ports e.ProductID, none)) →
      ∃ s1, GetUsersEntries.populate m es acc s = .ret s1 ∧ s1.db = s.db ∧
        s1.w = (dataWorld s 200
          [("entries", JVal.entries (acc ++ es.map (populated prod ports)))]).w := by
  induction es with
  | nil =>
    intro acc s _ _
    refine ⟨dataWorld s 200 [("entries", JVal.entries acc)], ?_, rfl, by simp⟩
    simp [GetUsersEntries.populate, GetUsersEntries.sendData,
      GetUsersEntries.ResponseObject.json, omitEmptyString, dataWorld, StatusOK]
  | cons e rest ih =>
    intro acc s hp hq
    have h1 := hp e (List.mem_cons_self _ _)
    have h2 : m.GetProductsPortions (s.called (.GetProductById e.ProductID)).db e.ProductID
        = .ret (ports e.ProductID, none) := hq e (List.mem_cons_self _ _)
    obtain ⟨s1, hs1, hdb, hw⟩ := ih (acc ++ [populated prod ports e])
      ((s.called (.GetProductById e.ProductID)).called (.GetProductsPortions e.ProductID))
      (fun x hx => hp x (List.mem_cons_of_mem _ hx))
      (fun x hx => hq x (List.mem_cons_of_mem _ hx))
    refine ⟨s1, ?_, hdb, ?_⟩
    · simp only [GetUsersEntries.populate, h1, h2, Option.isSome_none, Bool.false_eq_true,
        if_false]
      exact hs1
    · rw [hw]
      simp [dataWorld, World.called, World.addHeader, World.writeHeader, World.encode]

theorem populate_aborts (m : Models) (pre : List models.Entry) (ek : models.Entry)
    (post : List models.Entry) (p? : Option models.Product) (err : String) :
    ∀ (acc : List GetUsersEntries.Entry) (s : World),
      (∀ e ∈ pre, ∃ p ps, m.GetProductById s.db e.ProductID = .ret (some p, none) ∧
        m.GetProductsPortions s.db e.ProductID = .ret (ps, none)) →
      (m.GetProductById s.db ek.ProductID = .ret (p?, some err) ∨
        (m.GetProductById s.db ek.ProductID = .ret (p?, none) ∧
          ∃ ps, m.GetProductsPortions s.db ek.ProductID = .ret (ps, some err))) →
      ∃ s1 msg, GetUsersEntries.populate m (pre ++ ek :: post) acc s = .ret s1 ∧
        s1.db = s.db ∧ msg ≠ "" ∧ s1.w = (errorWorld s 400 msg).w := by
  induction pre with
  | nil =>
    intro acc s _ hfail
    rcases hfail with h1 | ⟨h1, ps, h2⟩
    · refine ⟨errorWorld (s.called (.GetProductById ek.ProductID)) 400
        ("While creating entry" ++ ": " ++ ("While getting db product" ++ ": " ++ err)),
        "While creating entry" ++ ": " ++ ("While getting db product" ++ ": " ++ err), ?_, rfl,
        wrapped_text_ne_empty _ _ (by decide), ?_⟩
      · simp only [List.nil_append, GetUsersEntries.populate, h1, Option.isSome_some, if_true,
          errors.Wrap, GetUsersEntries_sendError_some, StatusBadRequest]
      · rfl
    · have h2a : m.GetProductsPortions (s.called (.GetProductById ek.ProductID)).db
          ek.ProductID = .ret (ps, some err) := h2
      refine ⟨errorWorld ((s.called (.GetProductById ek.ProductID)).called
          (.GetProductsPortions ek.ProductID)) 400
        ("While creating entry" ++ ": " ++ ("While getting db product portion" ++ ": " ++ err)),
        "While creating entry" ++ ": " ++ ("While getting db product portion" ++ ": " ++ err),
        ?_, rfl, wrapped_text_ne_empty _ _ (by decide), ?_⟩
      · simp only [List.nil_append, GetUsersEntries.populate, h1, h2a, Option.isSome_some,
          Option.isSome_none, Bool.false_eq_true, if_false, if_true,
          errors.Wrap, GetUsersEntries_sendError_some, StatusBadRequest]
      · rfl
  | cons e rest ih =>
    intro acc s hpre hfail
    obtain ⟨p, ps, h1, h2⟩ := hpre e (List.mem_cons_self _ _)
    have h2a : m.GetProductsPortions (s.called (.GetProductById e.ProductID)).db e.ProductID
        = .ret (ps, none) := h2
    obtain ⟨s1, msg, hs1, hdb, hmsg, hw⟩ := ih (acc ++ [⟨e, ⟨p, ps⟩⟩])
      ((s.called (.GetProductById e.ProductID)).called (.GetProductsPortions e.ProductID))
      (fun x hx => hpre x (List.mem_cons_of_mem _ hx)) hfail
    refine ⟨s1, msg, ?_, hdb, hmsg, ?_⟩
    · simp only [List.cons_append, GetUsersEntries.populate, h1, h2a, Option.isSome_none,
        Bool.false_eq_true, if_false]
      exact hs1
    · rw [hw]
      simp [errorWorld, World.called, World.addHeader, World.writeHeader, World.encode]

/-- C6: in a List-for-user request that decodes, is authenticated, and for
which `models.GetUsersEntries` succeeds with `pre ++ ek :: post`: if the
lookups for every entry of `pre` succeed and the product lookup or the
portions lookup for `ek` returns an error, the handler writes exactly one
response, of status 400, whose body is an `error` message and nothing else,
however long `pre` is. -/
theorem lookup_failure_aborts_whole_listing (m : Models) (db : DB) (u : Int) (date : Nat)
    (pre : List models.Entry) (ek : models.Entry) (post : List models.Entry)
    (p? : Option models.Product) (err : String)
    (hlist : m.GetUsersEntries db u date = .ret (some (pre ++ ek :: post), none))
    (hpre : ∀ e ∈ pre, ∃ p ps, m.GetProductById db e.ProductID = .ret (some p, none) ∧
      m.GetProductsPortions db e.ProductID = .ret (ps, none))
    (hfail : m.GetProductById db ek.ProductID = .ret (p?, some err) ∨
      (m.GetProductById db ek.ProductID = .ret (p?, none) ∧
        ∃ ps, m.GetProductsPortions db ek.ProductID = .ret (ps, some err))) :
    ∃ s, handlers.GetUsersEntries m ⟨.ok ⟨date⟩, some u⟩ (World.init db) = .ret s ∧
      s.db = db ∧ IsErrorResponse s.w 400 := by
  have hlist1 : m.GetUsersEntries (World.init db).db u date
      = .ret (some (pre ++ ek :: post), none) := hlist
  obtain ⟨s1, msg, hs1, hdb, hmsg, hw⟩ := populate_aborts m pre ek post p? err []
    ((World.init db).called (.GetUsersEntries u date)) hpre hfail
  refine ⟨s1, ?_, hdb, ?_⟩
  · simp only [handlers.GetUsersEntries, hlist1, Option.isSome_none, Bool.false_eq_true,
      if_false]
    exact hs1
  · rw [hw]
    exact isErrorResponse_of_ne _ 400 msg rfl hmsg

/-- Witness for C6: the user has three entries, of products 5, 6 and 5; the
lookups for the first succeed, product 6 does not exist. -/
theorem lookup_failure_aborts_whole_listing_witness :
    ∃ s, handlers.GetUsersEntries
        (listingModels [⟨7, 2, 5, f2_5⟩, ⟨9, 2, 6, f2_5⟩, ⟨10, 2, 5, f2_5⟩])
        ⟨.ok ⟨100⟩, some 2⟩ (World.init sampleDB) = .ret s ∧
      s.db = sampleDB ∧ IsErrorResponse s.w 400 :=
  lookup_failure_aborts_whole_listing
    (listingModels [⟨7, 2, 5, f2_5⟩, ⟨9, 2, 6, f2_5⟩, ⟨10, 2, 5, f2_5⟩]) sampleDB 2 100
    [⟨7, 2, 5, f2_5⟩] ⟨9, 2, 6, f2_5⟩ [⟨10, 2, 5, f2_5⟩] none "No product with given id"
    rfl
    (by
      intro e he
      rw [List.mem_singleton] at he
      subst he
      exact ⟨⟨[.int 5, .text "oats"]⟩, [⟨[.int 1, .int 5, .text "bowl"]⟩],
        by decide, by decide⟩)
    (Or.inl (by decide))

/-- C10: in a List-for-user request by user `u` in which
`models.GetUsersEntries` succeeds with `es` and the product and the portions
lookup succeed for every entry of `es`, the handler writes exactly one
response, of status 200, whose `entries` list is `es` in the same order,
each entry unchanged and paired with the product and the whole portion list
the lookups return for its `ProductID`; for an empty `es` the list is
empty. -/
theorem listing_is_entries_with_products (m : Models) (db : DB) (u : Int) (date : Nat)
    (es : List models.Entry) (prod : Int → models.Product)
    (ports : Int → List models.Portion)
    (hlist : m.GetUsersEntries db u date = .ret (some es, none))
    (hprod : ∀ e ∈ es, m.GetProductById db e.ProductID = .ret (some (prod e.ProductID), none))
    (hport : ∀ e ∈ es, m.GetProductsPortions db e.ProductID = .ret (ports e.ProductID, none)) :
    ∃ s, handlers.GetUsersEntries m ⟨.ok ⟨date⟩, some u⟩ (World.init db) = .ret s ∧
      s.db = db ∧ s.w.status = [200] ∧
      s.w.body = [[("entries", JVal.entries (es.map (fun e =>
        (⟨e, ⟨prod e.ProductID, ports e.ProductID⟩⟩ : GetUsersEntries.Entry))))]] := by
  have hlist1 : m.GetUsersEntries (World.init db).db u date = .ret (some es, none) := hlist
  obtain ⟨s1, hs1, hdb, hw⟩ := populate_all_found m prod ports es []
    ((World.init db).called (.GetUsersEntries u date)) hprod hport
  refine ⟨s1, ?_, hdb, ?_, ?_⟩
  · simp only [handlers.GetUsersEntries, hlist1, Option.isSome_none, Bool.false_eq_true,
      if_false]
    exact hs1
  · rw [hw]
    rfl
  · rw [hw]
    rfl

/-- Witness for C10: the user has two entries of product 5. -/
theorem listing_is_entries_with_products_witness :
    ∃ s, handlers.GetUsersEntries (listingModels [⟨7, 2, 5, f2_5⟩, ⟨10, 2, 5, ⟨0⟩⟩])
        ⟨.ok ⟨100⟩, some 2⟩ (World.init sampleDB) = .ret s ∧
      s.db = sampleDB ∧ s.w.status = [200] ∧
      s.w.body = [[("entries", JVal.entries
        [⟨⟨7, 2, 5, f2_5⟩, ⟨⟨[.int 5, .text "oats"]⟩, [⟨[.int 1, .int 5, .text "bowl"]⟩]⟩⟩,
         ⟨⟨10, 2, 5, ⟨0⟩⟩, ⟨⟨[.int 5, .text "oats"]⟩, [⟨[.int 1, .int 5, .text "bowl"]⟩]⟩⟩])]] :=
  listing_is_entries_with_products (listingModels [⟨7, 2, 5, f2_5⟩, ⟨10, 2, 5, ⟨0⟩⟩])
    sampleDB 2 100 [⟨7, 2, 5, f2_5⟩, ⟨10, 2, 5, ⟨0⟩⟩]
    (fun _ => ⟨[.int 5, .text "oats"]⟩) (fun _ => [⟨[.int 1, .int 5, .text "bowl"]⟩])
    rfl (by decide) (by decide)

/-! ### Every response is well formed -/

theorem wellFormed_errorWorld (s : World) (st : Nat) (msg : String)
    (hw : s.w = ⟨[], [], []⟩) (hm : msg ≠ "") (hst : st = 400 ∨ st = 401) :
    WellFormed (errorWorld s st msg).w := by
  refine ⟨st, [("error", JVal.str msg)], ?_, ?_, by omega, ?_, ?_⟩
  · simp [errorWorld, World.addHeader, World.writeHeader, World.encode, hw]
  · simp [errorWorld, World.addHeader, World.writeHeader, World.encode, hw]
  · constructor
    · intro _
      omega
    · intro _
      exact ⟨msg, hm, by simp [List.lookup]⟩
  · rintro ⟨_, hp⟩
    rcases hp with hp | hp
    · simp [List.lookup] at hp
    · simp [List.lookup] at hp

theorem wellFormed_dataWorld (s : World) (b : Json)
    (hw : s.w = ⟨[], [], []⟩) (hb : b.lookup "error" = none) :
    WellFormed (dataWorld s 200 b).w := by
  refine ⟨200, b, ?_, ?_, by omega, ?_, ?_⟩
  · simp [dataWorld, World.addHeader, World.writeHeader, World.encode, hw]
  · simp [dataWorld, World.addHeader, World.writeHeader, World.encode, hw]
  · constructor
    · rintro ⟨msg, _, hl⟩
      rw [hb] at hl
      exact absurd hl (by simp)
    · intro h
      exact absurd rfl h
  · rintro ⟨he, _⟩
    rw [hb] at he
    exact absurd he (by simp)

theorem CreateEntry_sendError_wf (s : World) (st : Nat) (err : GoError) (s1 : World)
    (h : CreateEntry.sendError s st err = .ret s1)
    (hw : s.w = ⟨[], [], []⟩) (hst : st = 400 ∨ st = 401) : WellFormed s1.w := by
  cases err with
  | none => simp [CreateEntry.sendError, errors.Wrap, GoError.Error] at h
  | some e =>
    rw [CreateEntry_sendError_some] at h
    cases h
    exact wellFormed_errorWorld s st _ hw (wrapped_text_ne_empty _ _ (by decide)) hst

theorem GetUsersEntries_sendError_wf (s : World) (st : Nat) (err : GoError) (s1 : World)
    (h : GetUsersEntries.sendError s st err = .ret s1)
    (hw : s.w = ⟨[], [], []⟩) (hst : st = 400 ∨ st = 401) : WellFormed s1.w := by
  cases err with
  | none => simp [GetUsersEntries.sendError, errors.Wrap, GoError.Error] at h
  | some e =>
    rw [GetUsersEntries_sendError_some] at h
    cases h
    exact wellFormed_errorWorld s st _ hw (wrapped_text_ne_empty _ _ (by decide)) hst

theorem DeleteEntry_sendError_wf (s : World) (st : Nat) (err : GoError) (s1 : World)
    (h : DeleteEntry.sendError s st err = .ret s1)
    (hw : s.w = ⟨[], [], []⟩) (hst : st = 400 ∨ st = 401) : WellFormed s1.w := by
  cases err with
  | none => simp [DeleteEntry.sendError, errors.Wrap, GoError.Error] at h
  | some e =>
    rw [DeleteEntry_sendError_some] at h
    cases h
    exact wellFormed_errorWorld s st _ hw (wrapped_text_ne_empty _ _ (by decide)) hst

theorem UpdateEntry_sendError_wf (s : World) (st : Nat) (err : GoError) (s1 : World)
    (h : UpdateEntry.sendError s st err = .ret s1)
    (hw : s.w = ⟨[], [], []⟩) (hst : st = 400 ∨ st = 401) : WellFormed s1.w := by
  cases err with
  | none => simp [UpdateEntry.sendError, errors.Wrap, GoError.Error] at h
  | some e =>
    rw [UpdateEntry_sendError_some] at h
    cases h
    exact wellFormed_errorWorld s st _ hw (wrapped_text_ne_empty _ _ (by decide)) hst

theorem CreateEntry_sendData_wf (s : World) (entry : Option models.Entry) (s1 : World)
    (hw : s.w = ⟨[], [], []⟩)
    (h : CreateEntry.sendData s StatusOK entry = .ret s1) : WellFormed s1.w := by
  simp only [CreateEntry.sendData, Run.ret.injEq] at h
  subst h
  refine wellFormed_dataWorld s _ hw ?_
  cases entry <;> simp [CreateEntry.ResponseObject.json, omitEmptyString, List.lookup]

theorem GetUsersEntries_sendData_wf (s : World) (entries : Option (List GetUsersEntries.Entry))
    (s1 : World) (hw : s.w = ⟨[], [], []⟩)
    (h : GetUsersEntries.sendData s StatusOK entries = .ret s1) : WellFormed s1.w := by
  simp only [GetUsersEntries.sendData, Run.ret.injEq] at h
  subst h
  refine wellFormed_dataWorld s _ hw ?_
  cases entries <;> simp [GetUsersEntries.ResponseObject.json, omitEmptyString, List.lookup]

theorem DeleteEntry_sendData_wf (s : World) (s1 : World) (hw : s.w = ⟨[], [], []⟩)
    (h : DeleteEntry.sendData s StatusOK = .ret s1) : WellFormed s1.w := by
  simp only [DeleteEntry.sendData, Run.ret.injEq] at h
  subst h
  exact wellFormed_dataWorld s _ hw
    (by simp [DeleteEntry.ResponseObject.json, omitEmptyString])

theorem UpdateEntry_sendData_wf (s : World) (s1 : World) (hw : s.w = ⟨[], [], []⟩)
    (h : UpdateEntry.sendData s StatusOK = .ret s1) : WellFormed s1.w := by
  simp only [UpdateEntry.sendData, Run.ret.injEq] at h
  subst h
  exact wellFormed_dataWorld s _ hw
    (by simp [UpdateEntry.ResponseObject.json, omitEmptyString])

theorem populate_wf (m : Models) (es : List models.Entry) :
    ∀ (acc : List GetUsersEntries.Entry) (s s1 : World),
      GetUsersEntries.populate m es acc s = .ret s1 → s.w = ⟨[], [], []⟩ →
      WellFormed s1.w := by
  induction es with
  | nil =>
    intro acc s s1 h hw
    exact GetUsersEntries_sendData_wf s _ s1 hw h
  | cons e rest ih =>
    intro acc s s1 h hw
    simp only [GetUsersEntries.populate] at h
    split at h
    · exact absurd h (by simp)
    · split at h
      · exact GetUsersEntries_sendError_wf _ _ _ s1 h hw (Or.inl rfl)
      · split at h
        · exact absurd h (by simp)
        · split at h
          · exact GetUsersEntries_sendError_wf _ _ _ s1 h hw (Or.inl rfl)
          · split at h
            · exact absurd h (by simp)
            · exact ih _ _ s1 h hw

theorem CreateEntry_wf (m : Models) (r : Request CreateEntry.RequestObject) (db : DB)
    (s1 : World) (h : handlers.CreateEntry m r (World.init db) = .ret s1) :
    WellFormed s1.w := by
  simp only [handlers.CreateEntry] at h
  split at h
  · exact CreateEntry_sendError_wf _ _ _ s1 h rfl (Or.inl rfl)
  · split at h
    · exact CreateEntry_sendError_wf _ _ _ s1 h rfl (Or.inl rfl)
    · split at h
      · exact CreateEntry_sendError_wf _ _ _ s1 h rfl (Or.inl rfl)
      · split at h
        · exact absurd h (by simp)
        · split at h
          · exact CreateEntry_sendError_wf _ _ _ s1 h rfl (Or.inl rfl)
          · exact CreateEntry_sendData_wf _ _ s1 rfl h

theorem GetUsersEntries_wf (m : Models) (r : Request GetUsersEntries.RequestObject) (db : DB)
    (s1 : World) (h : handlers.GetUsersEntries m r (World.init db) = .ret s1) :
    WellFormed s1.w := by
  simp only [handlers.GetUsersEntries] at h
  split at h
  · exact GetUsersEntries_sendError_wf _ _ _ s1 h rfl (Or.inl rfl)
  · split at h
    · exact GetUsersEntries_sendError_wf _ _ _ s1 h rfl (Or.inl rfl)
    · split at h
      · exact absurd h (by simp)
      · split at h
        · exact GetUsersEntries_sendError_wf _ _ _ s1 h rfl (Or.inl rfl)
        · split at h
          · exact absurd h (by simp)
          · exact populate_wf m _ _ _ s1 h rfl

theorem DeleteEntry_wf (m : Models) (r : Request DeleteEntry.RequestObject) (db : DB)
    (s1 : World) (h : handlers.DeleteEntry m r (World.init db) = .ret s1) :
    WellFormed s1.w := by
  simp only [handlers.DeleteEntry] at h
  split at h
  · exact DeleteEntry_sendError_wf _ _ _ s1 h rfl (Or.inl rfl)
  · split at h
    · exact DeleteEntry_sendError_wf _ _ _ s1 h rfl (Or.inl rfl)
    · split at h
      · exact absurd h (by simp)
      · split at h
        · exact absurd h (by simp)
        · split at h
          · exact DeleteEntry_sendError_wf _ _ _ s1 h rfl (Or.inr rfl)
          · split at h
            · exact absurd h (by simp)
            · split at h
              · exact DeleteEntry_sendError_wf _ _ _ s1 h rfl (Or.inl rfl)
              · exact DeleteEntry_sendData_wf _ s1 rfl h

theorem UpdateEntry_wf (m : Models) (r : Request UpdateEntry.RequestObject) (db : DB)
    (s1 : World) (h : handlers.UpdateEntry m r (World.init db) = .ret s1) :
    WellFormed s1.w := by
  simp only [handlers.UpdateEntry] at h
  split at h
  · exact UpdateEntry_sendError_wf _ _ _ s1 h rfl (Or.inl rfl)
  · split at h
    · exact UpdateEntry_sendError_wf _ _ _ s1 h rfl (Or.inl rfl)
    · split at h
      · exact absurd h (by simp)
      · split at h
        · exact absurd h (by simp)
        · split at h
          · exact UpdateEntry_sendError_wf _ _ _ s1 h rfl (Or.inr rfl)
          · split at h
            · exact absurd h (by simp)
            · split at h
              · exact UpdateEntry_sendError_wf _ _ _ s1 h rfl (Or.inl rfl)
              · exact UpdateEntry_sendData_wf _ s1 rfl h

/-- C9: whenever one of the four handlers finishes a request (it returns
rather than panics), it has written exactly one response; the status is
200, 400 or 401; the body has a non-empty `error` field exactly when the
status is not 200; and no body has an `error` field together with an
`entry` or `entries` payload. -/
theorem finished_request_has_one_well_formed_response (m : Models) (db : DB) :
    (∀ r s, handlers.CreateEntry m r (World.init db) = .ret s → WellFormed s.w) ∧
    (∀ r s, handlers.GetUsersEntries m r (World.init db) = .ret s → WellFormed s.w) ∧
    (∀ r s, handlers.DeleteEntry m r (World.init db) = .ret s → WellFormed s.w) ∧
    (∀ r s, handlers.UpdateEntry m r (World.init db) = .ret s → WellFormed s.w) :=
  ⟨fun r s h => CreateEntry_wf m r db s h, fun r s h => GetUsersEntries_wf m r db s h,
    fun r s h => DeleteEntry_wf m r db s h, fun r s h => UpdateEntry_wf m r db s h⟩

/-- Witness for C9 on the sample database: a Create by user 42 (200), a
listing for user 2 whose product lookup fails (400), a Delete of entry 7 by
user 1 (401) and an Update without user id (400) all finish. -/
theorem finished_request_has_one_well_formed_response_witness :
    (∃ s, handlers.CreateEntry srcModels ⟨.ok ⟨some ⟨0, 9, 5, f2_5⟩⟩, some 42⟩
        (World.init sampleDB) = .ret s ∧ s.w.status = [200] ∧ WellFormed s.w) ∧
    (∃ s, handlers.GetUsersEntries srcModels ⟨.ok ⟨100⟩, some 2⟩
        (World.init sampleDB) = .ret s ∧ s.w.status = [400] ∧ WellFormed s.w) ∧
    (∃ s, handlers.DeleteEntry srcModels ⟨.ok ⟨7⟩, some 1⟩
        (World.init sampleDB) = .ret s ∧ s.w.status = [401] ∧ WellFormed s.w) ∧
    (∃ s, handlers.UpdateEntry srcModels ⟨.ok ⟨7, none⟩, none⟩
        (World.init sampleDB) = .ret s ∧ s.w.status = [400] ∧ WellFormed s.w) :=
  ⟨⟨_, rfl, rfl,
      (finished_request_has_one_well_formed_response srcModels sampleDB).1
        ⟨.ok ⟨some ⟨0, 9, 5, f2_5⟩⟩, some 42⟩ _ rfl⟩,
    ⟨_, rfl, rfl,
      (finished_request_has_one_well_formed_response srcModels sampleDB).2.1
        ⟨.ok ⟨100⟩, some 2⟩ _ rfl⟩,
    ⟨_, rfl, rfl,
      (finished_request_has_one_well_formed_response srcModels sampleDB).2.2.1
        ⟨.ok ⟨7⟩, some 1⟩ _ rfl⟩,
    ⟨_, rfl, rfl,
      (finished_request_has_one_well_formed_response srcModels sampleDB).2.2.2
        ⟨.ok ⟨7, none⟩, none⟩ _ rfl⟩⟩

end CalorieCounter
